import Mathlib

/-!
Search orchestration and dashboard permission filter.

A shallow embedding of `pkg/services/search/service.go` (the `SearchHandler`
of `SearchService` with its helper `sortedHits`) and of the seeding helper of
`pkg/services/sqlstore/permissions/dashboard_test.go`, together with the
properties the specification states about them.

Conventions of the embedding:

* Go `int64` values are `Int`; the handler performs no arithmetic on them.
* A Go `map[K]V` is an association list whose order is the order in which the
  one `range` loop over it visits the entries (Go leaves that order open, so
  every statement quantifies over it).
* A Go `error` is a value of an arbitrary type `ε`; a call that can fail
  returns `Except ε _`.
* The collaborators of the service are functions; the handler's outcome
  records the queries it handed to the storage collaborator.
-/

namespace search

/-! ## Strings -/

/-- Go's `<` on strings: lexicographic comparison, here by code points. -/
def strLess (a b : String) : Bool := decide (a.toList < b.toList)

/-- Go's `sort.Strings`: the slice rearranged in increasing order. -/
def sortStrings (xs : List String) : List String :=
  xs.insertionSort (fun a b => strLess b a = false)

/-! ## Data model -/

/-- Modelled from the spec: `model.Hit`, a search result row (id, uid, title,
tags, folder id, starred flag), declared in package `model`. -/
structure Hit where
  ID : Int
  UID : String
  Title : String
  Tags : List String
  FolderID : Int
  IsStarred : Bool
deriving DecidableEq, Repr

/-- Modelled from the spec: `model.HitList`, an ordered sequence of hits whose
fields the service writes in place (§3): the list holds references, so a
field set through the variable of a `range` loop is set in the list. The
embedding lists the hits by value and turns such a loop into a `map`; the two
writes of the handler depend on the hit alone and are idempotent, so a hit
listed twice fares as in the list of references. -/
abbrev HitList := List Hit

/-- Modelled from the spec: `HitList.Less`, the ordering `sort.Sort` uses on a
hit list: by title, case-sensitive, ascending. -/
def HitList.Less (a b : Hit) : Bool := strLess a.Title b.Title

/-- Modelled from the spec: `model.SortOption`, a name and a comparator
direction. The zero value is the one a query carries when no option is set. -/
structure SortOption where
  Name : String
  Descending : Bool
deriving DecidableEq, Repr

/-- Zero value of `model.SortOption`. -/
def SortOption.zero : SortOption := { Name := "", Descending := false }

/-- Part of `user.SignedInUser` the code reads: the user id, the organisation
and the permissions of the user (organisation, then action, then scopes). -/
structure SignedInUser where
  UserID : Int
  OrgID : Int
  Permissions : List (Int × List (String × List String))
deriving DecidableEq, Repr

/-- Type `dashboards.PermissionType`, an integer enumeration. -/
abbrev PermissionType := Int

/-- The struct `Query` of `service.go` (its fields `Type` and `Sort` are `Type_` and
`Sort_` here, the bare words being reserved). -/
structure Query where
  Title : String
  Tags : List String
  OrgId : Int
  SignedInUser : SignedInUser
  Limit : Int
  Page : Int
  IsStarred : Bool
  Type_ : String
  DashboardUIDs : List String
  DashboardIds : List Int
  FolderIds : List Int
  Permission : PermissionType
  Sort_ : String
  Result : HitList
deriving DecidableEq, Repr

/-- The struct `star.GetUserStarsQuery`. -/
structure GetUserStarsQuery where
  UserID : Int
deriving DecidableEq, Repr

/-- The struct `star.GetUserStarsResult`: `UserStars` is a `map[int64]bool`,
its entries listed in the order the `range` loop of the handler visits them
(in a map read from Go the keys are distinct). -/
structure GetUserStarsResult where
  UserStars : List (Int × Bool)
deriving DecidableEq, Repr

/-- Keys of the `UserStars` map: the starred ids (a key counts as starred
whatever boolean it maps to, as the handler only tests for presence). -/
def GetUserStarsResult.keys (r : GetUserStarsResult) : List Int :=
  r.UserStars.map Prod.fst

/-- The fields of `dashboards.FindPersistedDashboardsQuery` that the handler
fills in (`Type_` and `Sort_` for `Type` and `Sort`); its `Result` is what
`SearchDashboards` returns. -/
structure FindPersistedDashboardsQuery where
  Title : String
  SignedInUser : SignedInUser
  DashboardUIDs : List String
  DashboardIds : List Int
  Type_ : String
  FolderIds : List Int
  Tags : List String
  Limit : Int
  Page : Int
  Permission : PermissionType
  Sort_ : SortOption
deriving DecidableEq, Repr

/-- Go's `sort.Sort` on a `HitList`. The library promises a rearrangement of
the slice that is in increasing order for `Less`; it is not stable, so the
order among hits that `Less` does not separate is the algorithm's choice.
The embedding takes the algorithm as a parameter with exactly that promise. -/
structure SortSort where
  run : HitList → HitList
  perm : ∀ l, (run l).Perm l
  sorted : ∀ l, (run l).Pairwise (fun a b => HitList.Less b a = false)

/-- The struct `SearchService`: the registered sort options (a
`map[string]model.SortOption`) and the two collaborators the handler calls. -/
structure SearchService (ε : Type) where
  sortOptions : List (String × SortOption)
  GetByUser : GetUserStarsQuery → Except ε GetUserStarsResult
  SearchDashboards : FindPersistedDashboardsQuery → Except ε HitList

/-- Writing `m[k] = v` into a Go map. -/
def mapInsert (k : String) (v : SortOption) (m : List (String × SortOption)) :
    List (String × SortOption) :=
  (k, v) :: m.filter (fun e => e.1 != k)

/-- The constructor `ProvideService`: registers the two options `SortAlphaAsc`
and `SortAlphaDesc` (declared in `sorting.go`, which is not embedded, hence
arguments) under their names. -/
def ProvideService {ε : Type} (SortAlphaAsc SortAlphaDesc : SortOption)
    (GetByUser : GetUserStarsQuery → Except ε GetUserStarsResult)
    (SearchDashboards : FindPersistedDashboardsQuery → Except ε HitList) :
    SearchService ε :=
  { sortOptions :=
      mapInsert SortAlphaDesc.Name SortAlphaDesc (mapInsert SortAlphaAsc.Name SortAlphaAsc [])
    GetByUser := GetByUser
    SearchDashboards := SearchDashboards }

/-! ## The handler -/

/-- What a call of `SearchHandler` leaves behind: the returned error (`none`
for `nil`), the caller's query after the call, and the queries handed to
`dashboardService.SearchDashboards`, in order. -/
structure Outcome (ε : Type) where
  err : Option ε
  query : Query
  storageCalls : List FindPersistedDashboardsQuery

/-- The function `sortedHits`: copy, `sort.Sort`, then `sort.Strings` on the
tags of every hit. -/
def sortedHits (srt : SortSort) (unsorted : HitList) : HitList :=
  let hits := [] ++ unsorted
  let hits := srt.run hits
  hits.map (fun hit => { hit with Tags := sortStrings hit.Tags })

/-- The loop "set starred dashboards" of the handler. -/
def setStarred (staredDashIDs : GetUserStarsResult) (hits : HitList) : HitList :=
  hits.map (fun dashboard =>
    if dashboard.ID ∈ staredDashIDs.keys then { dashboard with IsStarred := true }
    else dashboard)

/-- The method `SearchService.SearchHandler`, for a query whose `SignedInUser`
is set. The comments are the ones of the source. -/
def SearchHandler {ε : Type} (srt : SortSort) (s : SearchService ε) (query : Query) :
    Outcome ε :=
  let starredQuery : GetUserStarsQuery := { UserID := query.SignedInUser.UserID }
  match s.GetByUser starredQuery with
  | .error err => { err := some err, query := query, storageCalls := [] }
  | .ok staredDashIDs =>
    -- No starred dashboards will be found
    if query.IsStarred && staredDashIDs.UserStars.length == 0 then
      { err := none, query := { query with Result := [] }, storageCalls := [] }
    else
      -- filter by starred dashboard IDs when starred dashboards are requested
      -- and no UID or ID filters are specified
      let query :=
        if query.IsStarred && query.DashboardIds.length == 0
            && query.DashboardUIDs.length == 0 then
          { query with
            DashboardIds :=
              staredDashIDs.UserStars.foldl (fun ids e => ids ++ [e.1]) query.DashboardIds }
        else query
      let dashboardQuery : FindPersistedDashboardsQuery :=
        { Title := query.Title
          SignedInUser := query.SignedInUser
          DashboardUIDs := query.DashboardUIDs
          DashboardIds := query.DashboardIds
          Type_ := query.Type_
          FolderIds := query.FolderIds
          Tags := query.Tags
          Limit := query.Limit
          Page := query.Page
          Permission := query.Permission
          Sort_ := SortOption.zero }
      let dashboardQuery :=
        match s.sortOptions.lookup query.Sort_ with
        | some sortOpt => { dashboardQuery with Sort_ := sortOpt }
        | none => dashboardQuery
      match s.SearchDashboards dashboardQuery with
      | .error err => { err := some err, query := query, storageCalls := [dashboardQuery] }
      | .ok result =>
        let hits := result
        let hits := if query.Sort_ == "" then sortedHits srt hits else hits
        -- set starred dashboards
        let hits := setStarred staredDashIDs hits
        -- filter for starred dashboards if requested
        let query :=
          if !query.IsStarred then { query with Result := hits }
          else { query with Result := hits.filter (fun dashboard => dashboard.IsStarred) }
        { err := none, query := query, storageCalls := [dashboardQuery] }

/-! ## The steps of the handler, named

The handler above follows the source line by line. The definitions below name
its intermediate values; `SearchHandler_eq` shows that the handler is
composed of them. -/

/-- The query of the caller after the narrowing step, given the starred
lookup's answer. -/
def afterNarrowing (query : Query) (stars : GetUserStarsResult) : Query :=
  if query.IsStarred && query.DashboardIds.length == 0 && query.DashboardUIDs.length == 0 then
    { query with DashboardIds := query.DashboardIds ++ stars.keys }
  else query

/-- The query the handler builds for the storage collaborator from the
(narrowed) query of the caller. -/
def storageQuery {ε : Type} (s : SearchService ε) (query : Query) :
    FindPersistedDashboardsQuery :=
  { Title := query.Title
    SignedInUser := query.SignedInUser
    DashboardUIDs := query.DashboardUIDs
    DashboardIds := query.DashboardIds
    Type_ := query.Type_
    FolderIds := query.FolderIds
    Tags := query.Tags
    Limit := query.Limit
    Page := query.Page
    Permission := query.Permission
    Sort_ := (s.sortOptions.lookup query.Sort_).getD SortOption.zero }

/-- The hits a handler has before it annotates them: the storage's answer,
sorted by `sortedHits` when the query names no sort. -/
def postSort (srt : SortSort) (query : Query) (hs : HitList) : HitList :=
  if query.Sort_ == "" then sortedHits srt hs else hs

/-- The result the handler computes from the hits the storage answered. -/
def finalHits (srt : SortSort) (query : Query) (stars : GetUserStarsResult) (hs : HitList) :
    HitList :=
  let hits := setStarred stars (if query.Sort_ == "" then sortedHits srt hs else hs)
  if query.IsStarred then hits.filter (fun dashboard => dashboard.IsStarred) else hits

/-- The outcome of the handler in terms of the named steps. -/
def handlerSteps {ε : Type} (srt : SortSort) (s : SearchService ε) (query : Query) :
    Outcome ε :=
  match s.GetByUser { UserID := query.SignedInUser.UserID } with
  | .error err => { err := some err, query := query, storageCalls := [] }
  | .ok stars =>
    if query.IsStarred && stars.UserStars.length == 0 then
      { err := none, query := { query with Result := [] }, storageCalls := [] }
    else
      match s.SearchDashboards (storageQuery s (afterNarrowing query stars)) with
      | .error err =>
        { err := some err, query := afterNarrowing query stars
          storageCalls := [storageQuery s (afterNarrowing query stars)] }
      | .ok hs =>
        { err := none
          query := { afterNarrowing query stars with Result := finalHits srt query stars hs }
          storageCalls := [storageQuery s (afterNarrowing query stars)] }

/-! ## The handler without the narrowing step, and a storage to run it on -/

/-- The handler as the specification lists its steps, with step 2 (narrowing
the request to the starred ids) left out: the starred lookup and the stop at
an empty starred set (step 1), the storage query built from the query of the
caller as it is (step 3), the default sort (step 4), the annotation (step 5)
and the starred-only filter (step 6). -/
def SearchHandlerWithoutNarrowing {ε : Type} (srt : SortSort) (s : SearchService ε)
    (query : Query) : Outcome ε :=
  match s.GetByUser { UserID := query.SignedInUser.UserID } with
  | .error err => { err := some err, query := query, storageCalls := [] }
  | .ok stars =>
    if query.IsStarred && stars.UserStars.length == 0 then
      { err := none, query := { query with Result := [] }, storageCalls := [] }
    else
      let dashboardQuery := storageQuery s query
      match s.SearchDashboards dashboardQuery with
      | .error err => { err := some err, query := query, storageCalls := [dashboardQuery] }
      | .ok result =>
        let hits := if query.Sort_ == "" then sortedHits srt result else result
        let hits := setStarred stars hits
        let hits := if query.IsStarred then hits.filter (fun h => h.IsStarred) else hits
        { err := none, query := { query with Result := hits }, storageCalls := [dashboardQuery] }

/-- Modelled from the spec: pagination by limit and page (§6, "pagination
limit/page"), the storage being a collaborator of the service: pages count from
1 and hold `limit` hits, and a limit below 1 asks for all hits. -/
def paginate (limit page : Int) (rows : HitList) : HitList :=
  if limit < 1 then rows
  else (rows.drop (((max page 1) - 1) * limit).toNat).take limit.toNat

/-- Modelled from the spec: a storage collaborator (§6) over a table of hits
which treats the `DashboardIds` of a query, when there are any, as a
restriction of its hits to those ids, and answers the page asked for. -/
def tableStorage {ε : Type} (rows : HitList) (dq : FindPersistedDashboardsQuery) :
    Except ε HitList :=
  let matching :=
    if dq.DashboardIds.isEmpty then rows
    else rows.filter (fun h => decide (h.ID ∈ dq.DashboardIds))
  .ok (paginate dq.Limit dq.Page matching)

/-- A service over `tableStorage`, the starred lookup answering `stars`. -/
def tableService (stars : List (Int × Bool)) (rows : HitList) : SearchService String :=
  ProvideService { Name := "alpha-asc", Descending := false }
    { Name := "alpha-desc", Descending := true }
    (fun _ => .ok { UserStars := stars }) (tableStorage rows)

/-! ## Concrete data for evaluating the definitions -/

/-- Insertion sort by `Less`, one algorithm that keeps the promise of
`sort.Sort`. -/
def insertionSorter : SortSort where
  run := fun l => l.insertionSort (fun a b => HitList.Less b a = false)
  perm := fun l => List.perm_insertionSort _ l
  sorted := fun l => by
    have htot : IsTotal Hit (fun a b => HitList.Less b a = false) := ⟨fun a b => by
      simp only [HitList.Less, strLess, decide_eq_false_iff_not, not_lt]
      exact le_total _ _⟩
    have htr : IsTrans Hit (fun a b => HitList.Less b a = false) := ⟨fun a b c => by
      simp only [HitList.Less, strLess, decide_eq_false_iff_not, not_lt]
      exact le_trans⟩
    exact List.sorted_insertionSort _ l

/-- A signed-in user with id 7. -/
def sampleUser : SignedInUser := { UserID := 7, OrgID := 1, Permissions := [] }

/-- A query with every filter empty. -/
def sampleQuery : Query :=
  { Title := "", Tags := [], OrgId := 1, SignedInUser := sampleUser, Limit := 0, Page := 0,
    IsStarred := false, Type_ := "", DashboardUIDs := [], DashboardIds := [], FolderIds := [],
    Permission := 1, Sort_ := "", Result := [] }

/-- A hit with the given id, title, tags and starred flag. -/
def mkHit (id : Int) (title : String) (tags : List String) (starred : Bool) : Hit :=
  { ID := id, UID := title, Title := title, Tags := tags, FolderID := 0, IsStarred := starred }

/-- A service with the two alphabetical sort options registered, a starred
lookup answering `stars`, and a storage answering `hits` to every query. -/
def sampleService (stars : List (Int × Bool)) (hits : HitList) : SearchService String :=
  ProvideService { Name := "alpha-asc", Descending := false }
    { Name := "alpha-desc", Descending := true }
    (fun _ => .ok { UserStars := stars }) (fun _ => .ok hits)

/-- Three hits as a storage might answer them: out of title order, one with
unsorted tags, one already flagged as starred. -/
def sampleHits : HitList :=
  [mkHit 1 "b" ["z", "y"] false, mkHit 2 "a" [] false, mkHit 3 "c" ["t"] true]

/-- A starred set holding the id 2. -/
def sampleStars : GetUserStarsResult := { UserStars := [(2, true)] }

/-- A service whose storage fails with the error "storage down", the starred
lookup answering `stars`. -/
def storageDownService (stars : List (Int × Bool)) : SearchService String :=
  ProvideService { Name := "alpha-asc", Descending := false }
    { Name := "alpha-desc", Descending := true }
    (fun _ => .ok { UserStars := stars }) (fun _ => .error "storage down")

end search

namespace permissions

open search

/-! ## Dashboard permission filter

The filter itself (`permissions.NewAccessControlDashboardPermissionFilter` and
its `Where`) belongs to package `permissions`, of which the integration test
`dashboard_test.go` is embedded here. The filter is modelled from the
specification (§3, §4.1 to §4.4); the seeding of the test table is the
test's `setupTest`. -/

/-- Modelled from the spec: `ScopeKind` (§3), the classified form of a scope
string: all-resources wildcard, wildcard of one kind, one resource by UID. -/
inductive ScopeKind where
  | AllWildcard
  | KindWildcard (kind : String)
  | ResourceUID (kind : String) (uid : String)
deriving DecidableEq, Repr

/-- Pieces of a text between its colons. -/
def splitColon : List Char → List (List Char)
  | [] => [[]]
  | c :: cs =>
    match splitColon cs with
    | [] => [[]]
    | p :: ps => if c = ':' then [] :: p :: ps else (c :: p) :: ps

/-- Modelled from the spec: `ScopeClassifier.classify` (§4.1): `"*"` is the
all-resources wildcard, `"<kind>:uid:*"` the wildcard of a kind,
`"<kind>:uid:<id>"` one resource, and any other text a plain resource scope
matched by literal equality. The classifier belongs to package
`accesscontrol`. -/
def classify (scope : String) : ScopeKind :=
  if scope = "*" then .AllWildcard
  else
    match splitColon scope.toList with
    | [kind, mid, id] =>
      if mid = ['u', 'i', 'd'] then
        if id = ['*'] then .KindWildcard (String.mk kind)
        else .ResourceUID (String.mk kind) (String.mk id)
      else .ResourceUID "" scope
    | _ => .ResourceUID "" scope

/-- Modelled from the spec: the predicate a filter hands out (§6, "an
equivalent embeddable predicate object"), standing for the SQL condition; a
node with a number stands for an `IN (?, …, ?)` list of that many bound
parameters. `uidIn` matches `dashboard.uid`, `folderUidIn` the UID of the
containing folder; the `Expanded` forms match against the granted folders
together with all their descendants (§4.3). -/
inductive Cond where
  | always
  | never
  | isFolder
  | uidIn (n : Nat)
  | folderUidIn (n : Nat)
  | uidInExpanded (n : Nat)
  | folderUidInExpanded (n : Nat)
  | not (c : Cond)
  | and (a b : Cond)
  | or (a b : Cond)
deriving DecidableEq, Repr

/-- Number of bound parameters a condition consumes. -/
def Cond.arity : Cond → Nat
  | .always | .never | .isFolder => 0
  | .uidIn n | .folderUidIn n | .uidInExpanded n | .folderUidInExpanded n => n
  | .not c => c.arity
  | .and a b | .or a b => a.arity + b.arity

/-- Modelled from the spec: `ActionPredicateBuilder.build` (§4.2) for the rows
of kind `ownKind` ("dashboards" or "folders"): a wildcard over everything or
over the rows' own kind makes the condition always true; no scope at all
makes it always false; otherwise the UIDs granted on the rows' own kind are
matched against `dashboard.uid` and, for dashboards, the folder UIDs granted
against the containing folder. With nested folders, folder UIDs are matched
through the expansion of §4.3. -/
def build (ownKind : String) (nested : Bool) (scopes : List String) : Cond × List String :=
  let kinds := scopes.map classify
  if kinds.any (fun k => k == .AllWildcard || k == .KindWildcard ownKind) then (.always, [])
  else if scopes.isEmpty then (.never, [])
  else
    let own := kinds.filterMap (fun k =>
      match k with
      | .ResourceUID kind uid => if kind == ownKind || kind == "" then some uid else none
      | _ => none)
    let parent := kinds.filterMap (fun k =>
      match k with
      | .ResourceUID kind uid =>
        if kind == "folders" && ownKind != "folders" then some uid else none
      | _ => none)
    if ownKind == "folders" then
      ((if nested then .uidInExpanded own.length else .uidIn own.length), own)
    else
      (.or (.uidIn own.length)
        (if nested then .folderUidInExpanded parent.length else .folderUidIn parent.length),
        own ++ parent)

/-- Modelled from the spec: permission level "view" of
`dashboards.PermissionType`. -/
def PERMISSION_VIEW : PermissionType := 1

/-- Modelled from the spec: permission level "edit" of
`dashboards.PermissionType`. -/
def PERMISSION_EDIT : PermissionType := 2

/-- Modelled from the spec: the query type that designates alert folders
(`searchstore.TypeAlertFolder`), a constant of package `searchstore`. -/
def TypeAlertFolder : String := "dash-folder-alerting"

/-- Modelled from the spec: the names of the actions (§3, §8). -/
def ActionDashboardsRead : String := "dashboards:read"

/-- Modelled from the spec: the write action on dashboards. -/
def ActionDashboardsWrite : String := "dashboards:write"

/-- Modelled from the spec: the create action on dashboards (in a folder). -/
def ActionDashboardsCreate : String := "dashboards:create"

/-- Modelled from the spec: the read action on folders. -/
def ActionFoldersRead : String := "folders:read"

/-- Modelled from the spec: the read action on alert rules. -/
def ActionAlertingRuleRead : String := "alerting.rules:read"

/-- Modelled from the spec: the filter (§4.4): the user, the actions that
must all hold for a dashboard row and for a folder row, and the nested
folders flag. -/
structure Filter where
  user : SignedInUser
  dashboardActions : List String
  folderActions : List String
  nestedFoldersEnabled : Bool
deriving DecidableEq, Repr

/-- Modelled from the spec: `NewFilter` (§4.4): view asks for the read
action, edit for the read action and a write or create action; the alert
folder query type asks for folder read and alert rule read on folders and
leaves dashboards out; an unknown level or query type is a configuration
error. -/
def NewFilter (user : SignedInUser) (permission : PermissionType) (queryType : String)
    (nestedFoldersEnabled : Bool) : Except String Filter :=
  if permission ≠ PERMISSION_VIEW ∧ permission ≠ PERMISSION_EDIT then
    .error "unrecognized permission level"
  else if queryType = TypeAlertFolder then
    .ok { user := user, dashboardActions := []
          folderActions := [ActionFoldersRead, ActionAlertingRuleRead]
          nestedFoldersEnabled := nestedFoldersEnabled }
  else if queryType = "" then
    if permission = PERMISSION_EDIT then
      .ok { user := user
            dashboardActions := [ActionDashboardsRead, ActionDashboardsWrite]
            folderActions := [ActionFoldersRead, ActionDashboardsCreate]
            nestedFoldersEnabled := nestedFoldersEnabled }
    else
      .ok { user := user, dashboardActions := [ActionDashboardsRead]
            folderActions := [ActionFoldersRead]
            nestedFoldersEnabled := nestedFoldersEnabled }
  else .error "unrecognized query type"

/-- Modelled from the spec: the scopes the permission-resolution collaborator
supplies for an action (§6), read from the user's map
`Permissions[OrgID][action]`; none when a key is missing. -/
def userScopes (user : SignedInUser) (action : String) : List String :=
  ((user.Permissions.lookup user.OrgID).bind (fun m => m.lookup action)).getD []

/-- Modelled from the spec: the conjunction of the conditions of the actions
that must all hold (§4.4), their parameters in the same order; no action at
all leaves the rows out. -/
def conjoin : List (Cond × List String) → Cond × List String
  | [] => (.never, [])
  | [c] => c
  | c :: cs => (.and c.1 (conjoin cs).1, c.2 ++ (conjoin cs).2)

/-- Whether a condition matches through the folder expansion. -/
def Cond.usesExpansion : Cond → Bool
  | .uidInExpanded _ | .folderUidInExpanded _ => true
  | .not c => c.usesExpansion
  | .and a b | .or a b => a.usesExpansion || b.usesExpansion
  | _ => false

/-- Modelled from the spec: `Filter.Where` (§4.4): the recursive query text
(empty unless the condition matches through the folder expansion), the
condition, and the bound parameters in the order the condition consumes
them. -/
def Filter.Where (f : Filter) : String × Cond × List String :=
  let dash := conjoin (f.dashboardActions.map (fun a =>
    build "dashboards" f.nestedFoldersEnabled (userScopes f.user a)))
  let fold := conjoin (f.folderActions.map (fun a =>
    build "folders" f.nestedFoldersEnabled (userScopes f.user a)))
  let q := Cond.or (.and (.not .isFolder) dash.1) (.and .isFolder fold.1)
  (if q.usesExpansion then "WITH RECURSIVE RecQry AS (SELECT uid, parent_uid FROM folder)" else "",
    q, dash.2 ++ fold.2)

/-- A row of the table `dashboard`, with the columns the test seeds. -/
structure Dashboard where
  ID : Int
  OrgID : Int
  Slug : String
  UID : String
  Title : String
  IsFolder : Bool
  FolderID : Int
deriving DecidableEq, Repr

/-- The tables a condition is evaluated over: the rows of `dashboard` and the
parent of each nested folder (folder UID, parent UID). -/
structure Tables where
  dashboard : List Dashboard
  folderParent : List (String × String)
deriving DecidableEq, Repr

/-- UID of the folder a row is in, if any. -/
def folderUID (t : Tables) (row : Dashboard) : Option String :=
  (t.dashboard.find? (fun r => r.IsFolder && r.ID == row.FolderID)).map (fun r => r.UID)

/-- Modelled from the spec: `NestedFolderExpander` (§4.3) as a traversal: the
granted folders together with their descendants, found in as many rounds as
there are parent entries. -/
def expand (t : Tables) (seeds : List String) : List String :=
  (List.range t.folderParent.length).foldl
    (fun acc _ => acc ++ (t.folderParent.filter (fun e => e.2 ∈ acc && e.1 ∉ acc)).map Prod.fst)
    seeds

/-- Modelled from the spec: what the storage does with the predicate, namely
whether a row satisfies the condition under the bound parameters, each node
taking its parameters from the front of the list. -/
def Cond.eval (t : Tables) (row : Dashboard) : Cond → List String → Bool
  | .always, _ => true
  | .never, _ => false
  | .isFolder, _ => row.IsFolder
  | .uidIn n, ps => row.UID ∈ ps.take n
  | .folderUidIn n, ps =>
    match folderUID t row with
    | some u => u ∈ ps.take n
    | none => false
  | .uidInExpanded n, ps => row.UID ∈ expand t (ps.take n)
  | .folderUidInExpanded n, ps =>
    match folderUID t row with
    | some u => u ∈ expand t (ps.take n)
    | none => false
  | .not c, ps => !(c.eval t row ps)
  | .and a b, ps => a.eval t row (ps.take a.arity) && b.eval t row (ps.drop a.arity)
  | .or a b, ps => a.eval t row (ps.take a.arity) || b.eval t row (ps.drop a.arity)

/-- The rows counted by `SELECT COUNT(*) FROM dashboard WHERE q` with the
condition and the parameters of the filter. -/
def matching (f : Filter) (t : Tables) : List Dashboard :=
  t.dashboard.filter (fun row => f.Where.2.1.eval t row f.Where.2.2)

/-- Decimal text of a number (`strconv.Itoa`). -/
def itoa (n : Nat) : String := toString n

/-- The rows `setupTest` inserts: `numFolders` folders with UID 1, 2, …,
then `numDashboards` dashboards with the UIDs that follow, dashboard `i` in
folder `i % numFolders` (in folder `numFolders` when that is 0). The row ids
are the ones an empty table hands out, 1, 2, … in the order of insertion. -/
def setupTest (numFolders numDashboards : Nat) : List Dashboard :=
  ((List.range numFolders).map (fun k =>
    let i := k + 1
    let str := itoa i
    ({ ID := i, OrgID := 1, Slug := str, UID := str, Title := str, IsFolder := true,
       FolderID := 0 } : Dashboard))) ++
  ((List.range numDashboards).map (fun k =>
    let i := numFolders + 1 + k
    let str := itoa i
    let folderID := if i % numFolders != 0 then i % numFolders else numFolders
    ({ ID := i, OrgID := 1, Slug := str, UID := str, Title := str, IsFolder := false,
       FolderID := folderID } : Dashboard)))

/-- Modelled from the spec: `accesscontrol.GroupScopesByAction`, the map from
each action to the scopes granted for it. -/
def GroupScopesByAction (permissions : List (String × String)) : List (String × List String) :=
  (permissions.map Prod.fst).eraseDups.map (fun a =>
    (a, (permissions.filter (fun p => p.1 == a)).map Prod.snd))

/-- The user of the test: organisation 1, with the given permissions. -/
def testUser (permissions : List (String × String)) : SignedInUser :=
  { UserID := 0, OrgID := 1, Permissions := [(1, GroupScopesByAction permissions)] }

/-- The count the test reads: the number of rows of `dashboard` that satisfy
the condition of the filter built for the user. -/
def countMatching (user : SignedInUser) (permission : PermissionType) (queryType : String)
    (nestedFoldersEnabled : Bool) (t : Tables) : Except String Nat :=
  (NewFilter user permission queryType nestedFoldersEnabled).map
    (fun f => (matching f t).length)

end permissions

namespace search

/-! ## Properties of the handler -/

/-- C1: a starred-only query whose starred lookup succeeds with an empty set
returns no error, sets the result to the empty hit list and hands no query to
the storage collaborator. -/
theorem SearchHandler_starred_empty {ε : Type} (srt : SortSort) (s : SearchService ε)
    (query : Query) (stars : GetUserStarsResult)
    (hq : query.IsStarred = true)
    (hs : s.GetByUser { UserID := query.SignedInUser.UserID } = .ok stars)
    (he : stars.UserStars = []) :
    (SearchHandler srt s query).err = none ∧
      (SearchHandler srt s query).query.Result = [] ∧
      (SearchHandler srt s query).storageCalls = [] := by
  simp [SearchHandler, hs, hq, he]

/-- Witness of C1: a starred-only query of user 7, who has starred nothing,
against a storage that would answer one hit. -/
theorem SearchHandler_starred_empty_witness :
    (SearchHandler insertionSorter (sampleService [] [mkHit 1 "a" [] false])
        { sampleQuery with IsStarred := true }).err = none ∧
      (SearchHandler insertionSorter (sampleService [] [mkHit 1 "a" [] false])
        { sampleQuery with IsStarred := true }).query.Result = [] ∧
      (SearchHandler insertionSorter (sampleService [] [mkHit 1 "a" [] false])
        { sampleQuery with IsStarred := true }).storageCalls = [] :=
  SearchHandler_starred_empty insertionSorter (sampleService [] [mkHit 1 "a" [] false])
    { sampleQuery with IsStarred := true } { UserStars := [] } rfl rfl rfl

/-! ### Auxiliary facts -/

theorem strLess_eq_false_iff (a b : String) : strLess b a = false ↔ a ≤ b := by
  simp only [strLess, decide_eq_false_iff_not, not_lt]
  exact String.le_iff_toList_le.symm

theorem sortStrings_perm (xs : List String) : (sortStrings xs).Perm xs :=
  List.perm_insertionSort _ xs

theorem foldl_append_keys (l : List (Int × Bool)) (init : List Int) :
    l.foldl (fun ids e => ids ++ [e.1]) init = init ++ l.map Prod.fst := by
  induction l generalizing init with
  | nil => simp
  | cons e l ih => simp [ih]

theorem sortedHits_perm (srt : SortSort) (hs : HitList) :
    (sortedHits srt hs).Perm (hs.map (fun hit => { hit with Tags := sortStrings hit.Tags })) := by
  simp only [sortedHits, List.nil_append]
  exact (srt.perm hs).map _

theorem afterNarrowing_fields (query : Query) (stars : GetUserStarsResult) :
    (afterNarrowing query stars).Sort_ = query.Sort_ ∧
      (afterNarrowing query stars).IsStarred = query.IsStarred ∧
      (afterNarrowing query stars).Result = query.Result := by
  unfold afterNarrowing
  split <;> simp

theorem SearchHandler_eq {ε : Type} (srt : SortSort) (s : SearchService ε) (query : Query) :
    SearchHandler srt s query = handlerSteps srt s query := by
  unfold SearchHandler handlerSteps
  dsimp only
  cases s.GetByUser { UserID := query.SignedInUser.UserID } with
  | error e => rfl
  | ok stars =>
    dsimp only
    by_cases hsc : (query.IsStarred && stars.UserStars.length == 0) = true
    · simp only [hsc, if_true]
    · simp only [hsc, if_false, foldl_append_keys]
      have hq : (if (query.IsStarred && query.DashboardIds.length == 0
            && query.DashboardUIDs.length == 0) = true then
          { query with DashboardIds := query.DashboardIds ++ List.map Prod.fst stars.UserStars }
          else query) = afterNarrowing query stars := rfl
      simp only [hq]
      obtain ⟨h1, h2, _⟩ := afterNarrowing_fields query stars
      generalize afterNarrowing query stars = q2 at h1 h2 ⊢
      have hdq : (match s.sortOptions.lookup q2.Sort_ with
          | some sortOpt =>
            ({ Title := q2.Title, SignedInUser := q2.SignedInUser
               DashboardUIDs := q2.DashboardUIDs, DashboardIds := q2.DashboardIds
               Type_ := q2.Type_, FolderIds := q2.FolderIds, Tags := q2.Tags
               Limit := q2.Limit, Page := q2.Page, Permission := q2.Permission
               Sort_ := sortOpt } : FindPersistedDashboardsQuery)
          | none =>
            { Title := q2.Title, SignedInUser := q2.SignedInUser
              DashboardUIDs := q2.DashboardUIDs, DashboardIds := q2.DashboardIds
              Type_ := q2.Type_, FolderIds := q2.FolderIds, Tags := q2.Tags
              Limit := q2.Limit, Page := q2.Page, Permission := q2.Permission
              Sort_ := SortOption.zero }) = storageQuery s q2 := by
        unfold storageQuery
        cases s.sortOptions.lookup q2.Sort_ <;> rfl
      simp only [hdq]
      cases s.SearchDashboards (storageQuery s q2) with
      | error e => rfl
      | ok hs =>
        simp only [finalHits, h1, h2]
        cases query.IsStarred <;> simp

/-! ### The claims -/

theorem setStarred_filter (stars : GetUserStarsResult) (l : HitList) :
    (setStarred stars l).filter (fun dashboard => dashboard.IsStarred) =
      setStarred stars (l.filter (fun h => h.IsStarred || decide (h.ID ∈ stars.keys))) := by
  simp only [setStarred, List.filter_map]
  congr 1
  refine List.filter_congr (fun h _ => ?_)
  by_cases hm : h.ID ∈ stars.keys <;> simp [hm]

theorem postSort_flags (srt : SortSort) (query : Query) (hs : HitList)
    (h : ∀ x ∈ hs, x.IsStarred = false) : ∀ x ∈ postSort srt query hs, x.IsStarred = false := by
  intro x hx
  unfold postSort at hx
  split at hx
  · have hp := (sortedHits_perm srt hs).mem_iff.mp hx
    simp only [List.mem_map] at hp
    obtain ⟨y, hy, rfl⟩ := hp
    exact h y hy
  · exact h x hx

/-- C3, as the code has it: a successful starred-only request either finds
the starred set empty (empty result, storage not asked) or hands one query to
the storage, and the result is exactly the sub-list, in post-sort order, of
the answered hits whose id is starred or whose starred flag the storage had
already set, each with the flag raised; when the storage answers every hit
with the flag down, it is exactly the sub-list of the hits whose id is
starred. -/
theorem SearchHandler_starred_filter {ε : Type} (srt : SortSort) (s : SearchService ε)
    (query : Query) (hst : query.IsStarred = true)
    (hok : (SearchHandler srt s query).err = none) :
    ∃ stars,
      s.GetByUser { UserID := query.SignedInUser.UserID } = .ok stars ∧
      ((stars.UserStars = [] ∧ (SearchHandler srt s query).query.Result = [] ∧
          (SearchHandler srt s query).storageCalls = []) ∨
        (stars.UserStars ≠ [] ∧ ∃ dq hs,
          (SearchHandler srt s query).storageCalls = [dq] ∧
          s.SearchDashboards dq = .ok hs ∧
          (SearchHandler srt s query).query.Result =
            setStarred stars ((postSort srt query hs).filter
              (fun h => h.IsStarred || decide (h.ID ∈ stars.keys))) ∧
          ((∀ h ∈ hs, h.IsStarred = false) →
            (SearchHandler srt s query).query.Result =
              setStarred stars ((postSort srt query hs).filter
                (fun h => decide (h.ID ∈ stars.keys)))))) := by
  rw [SearchHandler_eq] at hok ⊢
  unfold handlerSteps at hok ⊢
  cases hg : s.GetByUser { UserID := query.SignedInUser.UserID } with
  | error e => simp [hg] at hok
  | ok stars =>
    refine ⟨stars, rfl, ?_⟩
    simp only [hg, hst, Bool.true_and] at hok ⊢
    by_cases he : stars.UserStars = []
    · left
      simp [he]
    · right
      have hlen : (stars.UserStars.length == 0) = false := by
        cases hl : stars.UserStars with
        | nil => exact absurd hl he
        | cons a l => rfl
      simp only [hlen, Bool.false_eq_true, if_false] at hok ⊢
      cases hsd : s.SearchDashboards (storageQuery s (afterNarrowing query stars)) with
      | error e => simp [hsd] at hok
      | ok hs =>
        refine ⟨he, _, hs, rfl, hsd, ?_, ?_⟩
        · simp only [finalHits, hst, if_true]
          exact setStarred_filter stars _
        · intro hfl
          simp only [finalHits, hst, if_true]
          rw [setStarred_filter]
          congr 1
          refine List.filter_congr (fun h hh => ?_)
          have := postSort_flags srt query hs hfl h hh
          simp [this]

/-- Counterexample to C3 as stated: user 7 has starred only id 2 and asks for
the starred hits among the ids 2 and 3 (sort name "none-such", so the hits
keep the storage's order); the storage restricts its table to these ids and
answers hit 3, which it holds flagged as starred, and hit 2. The call
succeeds and the result keeps hit 3, whose id is not in the starred set. -/
theorem SearchHandler_starred_filter_counterexample :
    (SearchHandler insertionSorter
        (tableService [(2, true)] [mkHit 3 "c" [] true, mkHit 2 "a" [] false])
        { sampleQuery with IsStarred := true, DashboardIds := [2, 3],
                           Sort_ := "none-such" }).err = none ∧
      (SearchHandler insertionSorter
        (tableService [(2, true)] [mkHit 3 "c" [] true, mkHit 2 "a" [] false])
        { sampleQuery with IsStarred := true, DashboardIds := [2, 3],
                           Sort_ := "none-such" }).query.Result
        = [mkHit 3 "c" [] true, mkHit 2 "a" [] true] ∧
      (mkHit 3 "c" [] true).ID ∉ ({ UserStars := [(2, true)] } : GetUserStarsResult).keys := by
  decide

/-- Witness of C3 (as the code has it): a starred-only default query, user 7
having starred id 2, against the three sample hits. -/
theorem SearchHandler_starred_filter_witness :
    ({ sampleQuery with IsStarred := true } : Query).IsStarred = true ∧
    (SearchHandler insertionSorter (sampleService sampleStars.UserStars sampleHits)
      { sampleQuery with IsStarred := true }).err = none ∧
    ∃ stars,
      (sampleService sampleStars.UserStars sampleHits).GetByUser
        { UserID := ({ sampleQuery with IsStarred := true } : Query).SignedInUser.UserID }
        = .ok stars ∧
      ((stars.UserStars = [] ∧
          (SearchHandler insertionSorter (sampleService sampleStars.UserStars sampleHits)
            { sampleQuery with IsStarred := true }).query.Result = [] ∧
          (SearchHandler insertionSorter (sampleService sampleStars.UserStars sampleHits)
            { sampleQuery with IsStarred := true }).storageCalls = []) ∨
        (stars.UserStars ≠ [] ∧ ∃ dq hs,
          (SearchHandler insertionSorter (sampleService sampleStars.UserStars sampleHits)
            { sampleQuery with IsStarred := true }).storageCalls = [dq] ∧
          (sampleService sampleStars.UserStars sampleHits).SearchDashboards dq = .ok hs ∧
          (SearchHandler insertionSorter (sampleService sampleStars.UserStars sampleHits)
            { sampleQuery with IsStarred := true }).query.Result =
            setStarred stars ((postSort insertionSorter { sampleQuery with IsStarred := true }
              hs).filter (fun h => h.IsStarred || decide (h.ID ∈ stars.keys))) ∧
          ((∀ h ∈ hs, h.IsStarred = false) →
            (SearchHandler insertionSorter (sampleService sampleStars.UserStars sampleHits)
              { sampleQuery with IsStarred := true }).query.Result =
              setStarred stars ((postSort insertionSorter { sampleQuery with IsStarred := true }
                hs).filter (fun h => decide (h.ID ∈ stars.keys)))))) :=
  ⟨rfl, rfl,
    SearchHandler_starred_filter insertionSorter (sampleService sampleStars.UserStars sampleHits)
      { sampleQuery with IsStarred := true } rfl rfl⟩

/-- C4: after a successful search, starred-only or not, every hit of the
result whose id is in the starred set has its starred flag set. -/
theorem SearchHandler_marks_starred {ε : Type} (srt : SortSort) (s : SearchService ε)
    (query : Query) (stars : GetUserStarsResult)
    (hg : s.GetByUser { UserID := query.SignedInUser.UserID } = .ok stars)
    (hok : (SearchHandler srt s query).err = none) :
    ∀ h ∈ (SearchHandler srt s query).query.Result, h.ID ∈ stars.keys → h.IsStarred = true := by
  rw [SearchHandler_eq] at hok ⊢
  unfold handlerSteps at hok ⊢
  simp only [hg] at hok ⊢
  by_cases hsc : (query.IsStarred && stars.UserStars.length == 0) = true
  · simp [hsc]
  · rw [if_neg hsc] at hok ⊢
    cases hsd : s.SearchDashboards (storageQuery s (afterNarrowing query stars)) with
    | error e => simp [hsd] at hok
    | ok hs =>
      intro h hh hid
      simp only [finalHits] at hh
      have hmem : h ∈ setStarred stars (if query.Sort_ == "" then sortedHits srt hs else hs) := by
        split at hh
        · exact (List.mem_filter.mp hh).1
        · exact hh
      simp only [setStarred, List.mem_map] at hmem
      obtain ⟨x, _, rfl⟩ := hmem
      by_cases hx : x.ID ∈ stars.keys
      · simp [hx]
      · simp only [hx, if_false] at hid

/-- Witness of C4: the default query, user 7 having starred id 2, against the
three sample hits. -/
theorem SearchHandler_marks_starred_witness :
    (sampleService sampleStars.UserStars sampleHits).GetByUser
        { UserID := sampleQuery.SignedInUser.UserID } = .ok sampleStars ∧
    (SearchHandler insertionSorter (sampleService sampleStars.UserStars sampleHits)
      sampleQuery).err = none ∧
    ∀ h ∈ (SearchHandler insertionSorter (sampleService sampleStars.UserStars sampleHits)
      sampleQuery).query.Result, h.ID ∈ sampleStars.keys → h.IsStarred = true :=
  ⟨rfl, rfl,
    SearchHandler_marks_starred insertionSorter (sampleService sampleStars.UserStars sampleHits)
      sampleQuery sampleStars rfl rfl⟩

theorem handlerSteps_lookup_error {ε : Type} (srt : SortSort) (s : SearchService ε)
    (query : Query) (e : ε)
    (hg : s.GetByUser { UserID := query.SignedInUser.UserID } = .error e) :
    SearchHandler srt s query = { err := some e, query := query, storageCalls := [] } := by
  rw [SearchHandler_eq]
  unfold handlerSteps
  simp only [hg]

theorem handlerSteps_short_circuit {ε : Type} (srt : SortSort) (s : SearchService ε)
    (query : Query) (stars : GetUserStarsResult)
    (hg : s.GetByUser { UserID := query.SignedInUser.UserID } = .ok stars)
    (hsc : query.IsStarred = true ∧ stars.UserStars = []) :
    SearchHandler srt s query =
      { err := none, query := { query with Result := [] }, storageCalls := [] } := by
  rw [SearchHandler_eq]
  unfold handlerSteps
  simp [hg, hsc.1, hsc.2]

theorem handlerSteps_storage_error {ε : Type} (srt : SortSort) (s : SearchService ε)
    (query : Query) (stars : GetUserStarsResult) (e : ε)
    (hg : s.GetByUser { UserID := query.SignedInUser.UserID } = .ok stars)
    (hsc : ¬ (query.IsStarred = true ∧ stars.UserStars = []))
    (hsd : s.SearchDashboards (storageQuery s (afterNarrowing query stars)) = .error e) :
    SearchHandler srt s query =
      { err := some e, query := afterNarrowing query stars
        storageCalls := [storageQuery s (afterNarrowing query stars)] } := by
  rw [SearchHandler_eq]
  unfold handlerSteps
  have h : ¬ ((query.IsStarred && stars.UserStars.length == 0) = true) := by
    simpa using hsc
  simp only [hg, hsd]
  rw [if_neg h]

theorem handlerSteps_success {ε : Type} (srt : SortSort) (s : SearchService ε)
    (query : Query) (stars : GetUserStarsResult) (hs : HitList)
    (hg : s.GetByUser { UserID := query.SignedInUser.UserID } = .ok stars)
    (hsc : ¬ (query.IsStarred = true ∧ stars.UserStars = []))
    (hsd : s.SearchDashboards (storageQuery s (afterNarrowing query stars)) = .ok hs) :
    SearchHandler srt s query =
      { err := none
        query := { afterNarrowing query stars with Result := finalHits srt query stars hs }
        storageCalls := [storageQuery s (afterNarrowing query stars)] } := by
  rw [SearchHandler_eq]
  unfold handlerSteps
  have h : ¬ ((query.IsStarred && stars.UserStars.length == 0) = true) := by
    simpa using hsc
  simp only [hg, hsd]
  rw [if_neg h]

theorem SearchHandler_err_source {ε : Type} (srt : SortSort) (s : SearchService ε)
    (query : Query) (e : ε) (he : (SearchHandler srt s query).err = some e) :
    s.GetByUser { UserID := query.SignedInUser.UserID } = .error e ∨
      ∃ stars dq, s.GetByUser { UserID := query.SignedInUser.UserID } = .ok stars ∧
        dq ∈ (SearchHandler srt s query).storageCalls ∧ s.SearchDashboards dq = .error e := by
  cases hg : s.GetByUser { UserID := query.SignedInUser.UserID } with
  | error e2 =>
    rw [handlerSteps_lookup_error srt s query e2 hg] at he
    left
    simp only [Option.some.injEq] at he
    rw [he]
  | ok stars =>
    right
    by_cases hsc : query.IsStarred = true ∧ stars.UserStars = []
    · rw [handlerSteps_short_circuit srt s query stars hg hsc] at he
      simp at he
    · cases hsd2 : s.SearchDashboards (storageQuery s (afterNarrowing query stars)) with
      | error e2 =>
        rw [handlerSteps_storage_error srt s query stars e2 hg hsc hsd2] at he ⊢
        simp only [Option.some.injEq] at he
        subst he
        exact ⟨stars, _, rfl, List.mem_singleton.mpr rfl, hsd2⟩
      | ok hs =>
        rw [handlerSteps_success srt s query stars hs hg hsc hsd2] at he
        simp at he

/-- C5: when the starred lookup fails with `e` the handler returns `e`, asks
the storage nothing and leaves the query as it was; when the lookup succeeds
and the storage, asked by the handler, fails with `e`, the handler returns
`e` and leaves `query.Result` as it was; the handler returns an error in
these two cases only; and the storage is asked whenever the lookup succeeds,
unless the query is starred-only and the starred set is empty. -/
theorem SearchHandler_errors {ε : Type} (srt : SortSort) (s : SearchService ε) (query : Query) :
    (∀ e, s.GetByUser { UserID := query.SignedInUser.UserID } = .error e →
      (SearchHandler srt s query).err = some e ∧
      (SearchHandler srt s query).query = query ∧
      (SearchHandler srt s query).storageCalls = []) ∧
    (∀ stars e dq, s.GetByUser { UserID := query.SignedInUser.UserID } = .ok stars →
      dq ∈ (SearchHandler srt s query).storageCalls → s.SearchDashboards dq = .error e →
      (SearchHandler srt s query).err = some e ∧
      (SearchHandler srt s query).query.Result = query.Result) ∧
    (∀ e, (SearchHandler srt s query).err = some e →
      s.GetByUser { UserID := query.SignedInUser.UserID } = .error e ∨
      ∃ stars dq, s.GetByUser { UserID := query.SignedInUser.UserID } = .ok stars ∧
        dq ∈ (SearchHandler srt s query).storageCalls ∧ s.SearchDashboards dq = .error e) ∧
    (∀ stars, s.GetByUser { UserID := query.SignedInUser.UserID } = .ok stars →
      ¬ (query.IsStarred = true ∧ stars.UserStars = []) →
      (SearchHandler srt s query).storageCalls ≠ []) := by
  refine ⟨?_, ?_, ?_, ?_⟩
  · intro e hg
    rw [handlerSteps_lookup_error srt s query e hg]
    exact ⟨rfl, rfl, rfl⟩
  · intro stars e dq hg hdq hsd
    by_cases hsc : query.IsStarred = true ∧ stars.UserStars = []
    · rw [handlerSteps_short_circuit srt s query stars hg hsc] at hdq
      simp at hdq
    · cases hsd2 : s.SearchDashboards (storageQuery s (afterNarrowing query stars)) with
      | error e2 =>
        rw [handlerSteps_storage_error srt s query stars e2 hg hsc hsd2] at hdq ⊢
        simp only [List.mem_singleton] at hdq
        subst hdq
        rw [hsd2] at hsd
        cases hsd
        exact ⟨rfl, (afterNarrowing_fields query stars).2.2⟩
      | ok hs =>
        rw [handlerSteps_success srt s query stars hs hg hsc hsd2] at hdq
        simp only [List.mem_singleton] at hdq
        subst hdq
        rw [hsd2] at hsd
        cases hsd
  · intro e he
    exact SearchHandler_err_source srt s query e he
  · intro stars hg hsc
    cases hsd2 : s.SearchDashboards (storageQuery s (afterNarrowing query stars)) with
    | error e2 =>
      rw [handlerSteps_storage_error srt s query stars e2 hg hsc hsd2]
      simp
    | ok hs =>
      rw [handlerSteps_success srt s query stars hs hg hsc hsd2]
      simp

/-- Evaluation of C5 on a storage that fails: the handler returns the
storage's error and leaves the result of the caller, here the three sample
hits, in place. -/
theorem SearchHandler_errors_witness :
    (SearchHandler insertionSorter (storageDownService [(2, true)])
        { sampleQuery with Result := sampleHits }).err = some "storage down" ∧
      (SearchHandler insertionSorter (storageDownService [(2, true)])
        { sampleQuery with Result := sampleHits }).query.Result = sampleHits :=
  (SearchHandler_errors insertionSorter (storageDownService [(2, true)])
    { sampleQuery with Result := sampleHits }).2.1 { UserStars := [(2, true)] } "storage down"
    (storageQuery (storageDownService [(2, true)])
      (afterNarrowing { sampleQuery with Result := sampleHits } { UserStars := [(2, true)] }))
    rfl (by decide) rfl

theorem afterNarrowing_other_fields (query : Query) (stars : GetUserStarsResult) :
    (afterNarrowing query stars).Title = query.Title ∧
    (afterNarrowing query stars).Tags = query.Tags ∧
    (afterNarrowing query stars).OrgId = query.OrgId ∧
    (afterNarrowing query stars).SignedInUser = query.SignedInUser ∧
    (afterNarrowing query stars).Limit = query.Limit ∧
    (afterNarrowing query stars).Page = query.Page ∧
    (afterNarrowing query stars).IsStarred = query.IsStarred ∧
    (afterNarrowing query stars).Type_ = query.Type_ ∧
    (afterNarrowing query stars).DashboardUIDs = query.DashboardUIDs ∧
    (afterNarrowing query stars).FolderIds = query.FolderIds ∧
    (afterNarrowing query stars).Permission = query.Permission ∧
    (afterNarrowing query stars).Sort_ = query.Sort_ := by
  unfold afterNarrowing
  split <;> exact ⟨rfl, rfl, rfl, rfl, rfl, rfl, rfl, rfl, rfl, rfl, rfl, rfl⟩

theorem afterNarrowing_ids_narrowed (query : Query) (stars : GetUserStarsResult)
    (hst : query.IsStarred = true) (hids : query.DashboardIds = [])
    (huids : query.DashboardUIDs = []) :
    (afterNarrowing query stars).DashboardIds = stars.keys := by
  simp [afterNarrowing, hst, hids, huids]

theorem afterNarrowing_ids_kept (query : Query) (stars : GetUserStarsResult)
    (h : query.IsStarred = false ∨ query.DashboardIds ≠ [] ∨ query.DashboardUIDs ≠ []) :
    (afterNarrowing query stars).DashboardIds = query.DashboardIds := by
  have hc : (query.IsStarred && query.DashboardIds.length == 0
      && query.DashboardUIDs.length == 0) = false := by
    rcases h with h | h | h
    · simp [h]
    · have : (query.DashboardIds.length == 0) = false := by
        cases hq : query.DashboardIds with
        | nil => exact absurd hq h
        | cons a l => rfl
      simp [this]
    · have : (query.DashboardUIDs.length == 0) = false := by
        cases hq : query.DashboardUIDs with
        | nil => exact absurd hq h
        | cons a l => rfl
      simp [this]
  simp [afterNarrowing, hc]

theorem SearchHandler_query_cases {ε : Type} (srt : SortSort) (s : SearchService ε)
    (query : Query) :
    (∃ r, (SearchHandler srt s query).query = { query with Result := r } ∧
      ((∃ e, s.GetByUser { UserID := query.SignedInUser.UserID } = .error e) ∨
        ∃ stars, s.GetByUser { UserID := query.SignedInUser.UserID } = .ok stars ∧
          query.IsStarred = true ∧ stars.UserStars = [])) ∨
    (∃ stars r, s.GetByUser { UserID := query.SignedInUser.UserID } = .ok stars ∧
      ¬ (query.IsStarred = true ∧ stars.UserStars = []) ∧
      (SearchHandler srt s query).query = { afterNarrowing query stars with Result := r }) := by
  cases hg : s.GetByUser { UserID := query.SignedInUser.UserID } with
  | error e =>
    left
    rw [handlerSteps_lookup_error srt s query e hg]
    exact ⟨query.Result, rfl, Or.inl ⟨e, rfl⟩⟩
  | ok stars =>
    by_cases hsc : query.IsStarred = true ∧ stars.UserStars = []
    · left
      rw [handlerSteps_short_circuit srt s query stars hg hsc]
      exact ⟨[], rfl, Or.inr ⟨stars, rfl, hsc.1, hsc.2⟩⟩
    · right
      cases hsd : s.SearchDashboards (storageQuery s (afterNarrowing query stars)) with
      | error e =>
        rw [handlerSteps_storage_error srt s query stars e hg hsc hsd]
        exact ⟨stars, (afterNarrowing query stars).Result, rfl, hsc, rfl⟩
      | ok hs =>
        rw [handlerSteps_success srt s query stars hs hg hsc hsd]
        exact ⟨stars, _, rfl, hsc, rfl⟩

/-- C6, as the code has it: whatever the collaborators do, the handler leaves
every field of the query other than `Result` and `DashboardIds` as it was.
When the query is starred-only with `DashboardIds` and `DashboardUIDs` empty
and the starred lookup succeeds with a non-empty set, `DashboardIds` holds
the starred ids after the call (whether the storage then fails or not); in
every other case (the query is not starred-only, or it has a `DashboardIds`
or `DashboardUIDs` filter, or the lookup fails or answers an empty set)
`DashboardIds` is as it was. -/
theorem SearchHandler_frame {ε : Type} (srt : SortSort) (s : SearchService ε) (query : Query) :
    (SearchHandler srt s query).query.Title = query.Title ∧
    (SearchHandler srt s query).query.Tags = query.Tags ∧
    (SearchHandler srt s query).query.OrgId = query.OrgId ∧
    (SearchHandler srt s query).query.SignedInUser = query.SignedInUser ∧
    (SearchHandler srt s query).query.Limit = query.Limit ∧
    (SearchHandler srt s query).query.Page = query.Page ∧
    (SearchHandler srt s query).query.IsStarred = query.IsStarred ∧
    (SearchHandler srt s query).query.Type_ = query.Type_ ∧
    (SearchHandler srt s query).query.DashboardUIDs = query.DashboardUIDs ∧
    (SearchHandler srt s query).query.FolderIds = query.FolderIds ∧
    (SearchHandler srt s query).query.Permission = query.Permission ∧
    (SearchHandler srt s query).query.Sort_ = query.Sort_ ∧
    (∀ stars, s.GetByUser { UserID := query.SignedInUser.UserID } = .ok stars →
      query.IsStarred = true → stars.UserStars ≠ [] →
      query.DashboardIds = [] → query.DashboardUIDs = [] →
      (SearchHandler srt s query).query.DashboardIds = stars.keys) ∧
    ((query.IsStarred = false ∨ query.DashboardIds ≠ [] ∨ query.DashboardUIDs ≠ [] ∨
        (∀ stars, s.GetByUser { UserID := query.SignedInUser.UserID } = .ok stars →
          stars.UserStars = [])) →
      (SearchHandler srt s query).query.DashboardIds = query.DashboardIds) := by
  rcases SearchHandler_query_cases srt s query with ⟨r, hq, hwhy⟩ | ⟨stars, r, hg, hsc, hq⟩
  · rw [hq]
    refine ⟨rfl, rfl, rfl, rfl, rfl, rfl, rfl, rfl, rfl, rfl, rfl, rfl, ?_, fun _ => rfl⟩
    intro stars hg hst hne hids huids
    rcases hwhy with ⟨e, he⟩ | ⟨st, hst2, _, hemp⟩
    · rw [he] at hg
      cases hg
    · rw [hst2] at hg
      cases hg
      exact absurd hemp hne
  · rw [hq]
    obtain ⟨h1, h2, h3, h4, h5, h6, h7, h8, h9, h10, h11, h12⟩ :=
      afterNarrowing_other_fields query stars
    refine ⟨h1, h2, h3, h4, h5, h6, h7, h8, h9, h10, h11, h12, ?_, ?_⟩
    · intro st hg2 hst _ hids huids
      rw [hg] at hg2
      cases hg2
      exact afterNarrowing_ids_narrowed query stars hst hids huids
    · intro hcase
      show (afterNarrowing query stars).DashboardIds = query.DashboardIds
      rcases hcase with h | h | h | h
      · exact afterNarrowing_ids_kept query stars (Or.inl h)
      · exact afterNarrowing_ids_kept query stars (Or.inr (Or.inl h))
      · exact afterNarrowing_ids_kept query stars (Or.inr (Or.inr h))
      · have hemp := h stars hg
        by_cases hst : query.IsStarred = true
        · exact absurd ⟨hst, hemp⟩ hsc
        · exact afterNarrowing_ids_kept query stars (Or.inl (by simpa using hst))

/-- Evaluation of C6 (as the code has it) on a starred-only query without id
or uid filters, user 7 having starred the ids 2 and 5: after the call
`DashboardIds` holds 2 and 5, also when the storage fails. -/
theorem SearchHandler_frame_witness :
    (SearchHandler insertionSorter (storageDownService [(2, true), (5, false)])
        { sampleQuery with IsStarred := true }).query.DashboardIds = [2, 5] :=
  (SearchHandler_frame insertionSorter (storageDownService [(2, true), (5, false)])
    { sampleQuery with IsStarred := true }).2.2.2.2.2.2.2.2.2.2.2.2.1
    { UserStars := [(2, true), (5, false)] } rfl rfl (by decide) rfl rfl

/-- Counterexample to C6 as stated: a starred-only query without id or uid
filters, user 7 having starred id 2, comes back with `DashboardIds = [2]`
although the caller passed none. -/
theorem SearchHandler_frame_counterexample :
    ({ sampleQuery with IsStarred := true } : Query).DashboardIds = [] ∧
      (SearchHandler insertionSorter (sampleService [(2, true)] sampleHits)
        { sampleQuery with IsStarred := true }).query.DashboardIds = [2] := by
  decide

/-- C7: when the starred lookup answers a non-empty starred set (a map, so
its keys are distinct) to a starred-only query with `DashboardIds` and
`DashboardUIDs` empty, the storage is handed one query whose `DashboardIds`
are the starred ids, every one once and nothing else, and whose
`DashboardUIDs` are empty; when the query is not starred-only or has a
`DashboardIds` or `DashboardUIDs` filter, every query handed to the storage
carries the caller's `DashboardIds` and `DashboardUIDs`, and one is handed
whenever the lookup succeeds and the handler does not stop at an empty
starred set. -/
theorem SearchHandler_narrowing {ε : Type} (srt : SortSort) (s : SearchService ε)
    (query : Query) :
    (∀ stars, s.GetByUser { UserID := query.SignedInUser.UserID } = .ok stars →
      stars.keys.Nodup → query.IsStarred = true → stars.UserStars ≠ [] →
      query.DashboardIds = [] → query.DashboardUIDs = [] →
      ∃ dq, (SearchHandler srt s query).storageCalls = [dq] ∧
        dq.DashboardIds.Perm stars.keys ∧ dq.DashboardIds.Nodup ∧
        (∀ id, id ∈ dq.DashboardIds ↔ id ∈ stars.keys) ∧ dq.DashboardUIDs = []) ∧
    ((query.IsStarred = false ∨ query.DashboardIds ≠ [] ∨ query.DashboardUIDs ≠ []) →
      (∀ dq ∈ (SearchHandler srt s query).storageCalls,
        dq.DashboardIds = query.DashboardIds ∧ dq.DashboardUIDs = query.DashboardUIDs) ∧
      (∀ stars, s.GetByUser { UserID := query.SignedInUser.UserID } = .ok stars →
        ¬ (query.IsStarred = true ∧ stars.UserStars = []) →
        ∃ dq, (SearchHandler srt s query).storageCalls = [dq])) := by
  have hcalls : ∀ stars, s.GetByUser { UserID := query.SignedInUser.UserID } = .ok stars →
      ¬ (query.IsStarred = true ∧ stars.UserStars = []) →
      (SearchHandler srt s query).storageCalls = [storageQuery s (afterNarrowing query stars)] := by
    intro stars hg hsc
    cases hsd : s.SearchDashboards (storageQuery s (afterNarrowing query stars)) with
    | error e => rw [handlerSteps_storage_error srt s query stars e hg hsc hsd]
    | ok hs => rw [handlerSteps_success srt s query stars hs hg hsc hsd]
  refine ⟨?_, ?_⟩
  · intro stars hg hnd hst hne hids huids
    refine ⟨_, hcalls stars hg (fun h => hne h.2), ?_⟩
    have hd : (storageQuery s (afterNarrowing query stars)).DashboardIds = stars.keys := by
      simp [storageQuery, afterNarrowing, hst, hids, huids]
    have hu : (storageQuery s (afterNarrowing query stars)).DashboardUIDs = [] := by
      simp [storageQuery, afterNarrowing, hst, hids, huids]
    rw [hd, hu]
    exact ⟨List.Perm.refl _, hnd, fun _ => Iff.rfl, rfl⟩
  · intro hcond
    have hsame : ∀ stars,
        (storageQuery s (afterNarrowing query stars)).DashboardIds = query.DashboardIds ∧
        (storageQuery s (afterNarrowing query stars)).DashboardUIDs = query.DashboardUIDs := by
      intro stars
      have hc : (query.IsStarred && query.DashboardIds.length == 0
          && query.DashboardUIDs.length == 0) = false := by
        rcases hcond with h | h | h
        · simp [h]
        · have : (query.DashboardIds.length == 0) = false := by
            cases hq : query.DashboardIds with
            | nil => exact absurd hq h
            | cons a l => rfl
          simp [this]
        · have : (query.DashboardUIDs.length == 0) = false := by
            cases hq : query.DashboardUIDs with
            | nil => exact absurd hq h
            | cons a l => rfl
          simp [this]
      simp [storageQuery, afterNarrowing, hc]
    refine ⟨?_, fun stars hg hsc => ⟨_, hcalls stars hg hsc⟩⟩
    intro dq hdq
    cases hg : s.GetByUser { UserID := query.SignedInUser.UserID } with
    | error e =>
      rw [handlerSteps_lookup_error srt s query e hg] at hdq
      simp at hdq
    | ok stars =>
      by_cases hsc : query.IsStarred = true ∧ stars.UserStars = []
      · rw [handlerSteps_short_circuit srt s query stars hg hsc] at hdq
        simp at hdq
      · rw [hcalls stars hg hsc, List.mem_singleton] at hdq
        rw [hdq]
        exact hsame stars

/-- Evaluation of C7 on a starred-only query without filters, user 7 having
starred the ids 2 and 5: the storage is handed the ids 2 and 5. -/
theorem SearchHandler_narrowing_witness :
    ∃ dq, (SearchHandler insertionSorter (sampleService [(2, true), (5, false)] sampleHits)
        { sampleQuery with IsStarred := true }).storageCalls = [dq] ∧
      dq.DashboardIds.Perm [2, 5] ∧ dq.DashboardIds.Nodup ∧
      (∀ id, id ∈ dq.DashboardIds ↔ id ∈ [2, 5]) ∧ dq.DashboardUIDs = [] :=
  (SearchHandler_narrowing insertionSorter (sampleService [(2, true), (5, false)] sampleHits)
    { sampleQuery with IsStarred := true }).1 { UserStars := [(2, true), (5, false)] }
    rfl (by decide) rfl (by decide) rfl rfl

/-- C9, as the code has it: a query whose sort name is not registered is not
rejected (an error comes from a collaborator only) and every query handed to
the storage carries no sort option; when the empty name is not registered
either, the storage is asked, and fails or not, exactly as for the same query
with the sort name left empty; but the handler's own default sort is applied
only when the sort name is empty: under a non-empty unregistered name the
result is the storage's hits in the storage's order, annotated and, for a
starred-only query, filtered. -/
theorem SearchHandler_unknown_sort {ε : Type} (srt : SortSort) (s : SearchService ε)
    (query : Query) (hl : s.sortOptions.lookup query.Sort_ = none) :
    (∀ dq ∈ (SearchHandler srt s query).storageCalls, dq.Sort_ = SortOption.zero) ∧
    (∀ e, (SearchHandler srt s query).err = some e →
      s.GetByUser { UserID := query.SignedInUser.UserID } = .error e ∨
      ∃ dq ∈ (SearchHandler srt s query).storageCalls, s.SearchDashboards dq = .error e) ∧
    (s.sortOptions.lookup "" = none →
      (SearchHandler srt s query).storageCalls =
        (SearchHandler srt s { query with Sort_ := "" }).storageCalls ∧
      (SearchHandler srt s query).err = (SearchHandler srt s { query with Sort_ := "" }).err) ∧
    (query.Sort_ ≠ "" → ∀ stars dq hs,
      s.GetByUser { UserID := query.SignedInUser.UserID } = .ok stars →
      (SearchHandler srt s query).storageCalls = [dq] → s.SearchDashboards dq = .ok hs →
      (SearchHandler srt s query).query.Result =
        if query.IsStarred then (setStarred stars hs).filter (fun h => h.IsStarred)
        else setStarred stars hs) := by
  have hzero : ∀ stars, (storageQuery s (afterNarrowing query stars)).Sort_ = SortOption.zero := by
    intro stars
    simp [storageQuery, (afterNarrowing_fields query stars).1, hl]
  refine ⟨?_, ?_, ?_, ?_⟩
  · intro dq hdq
    cases hg : s.GetByUser { UserID := query.SignedInUser.UserID } with
    | error e =>
      rw [handlerSteps_lookup_error srt s query e hg] at hdq
      simp at hdq
    | ok stars =>
      by_cases hsc : query.IsStarred = true ∧ stars.UserStars = []
      · rw [handlerSteps_short_circuit srt s query stars hg hsc] at hdq
        simp at hdq
      · cases hsd : s.SearchDashboards (storageQuery s (afterNarrowing query stars)) with
        | error e =>
          rw [handlerSteps_storage_error srt s query stars e hg hsc hsd,
            List.mem_singleton] at hdq
          rw [hdq]
          exact hzero stars
        | ok hs =>
          rw [handlerSteps_success srt s query stars hs hg hsc hsd, List.mem_singleton] at hdq
          rw [hdq]
          exact hzero stars
  · intro e he
    rcases SearchHandler_err_source srt s query e he with h | ⟨stars, dq, _, h2, h3⟩
    · exact Or.inl h
    · exact Or.inr ⟨dq, h2, h3⟩
  · intro hl0
    have hq : ∀ stars, storageQuery s (afterNarrowing { query with Sort_ := "" } stars) =
        storageQuery s (afterNarrowing query stars) := by
      intro stars
      unfold storageQuery afterNarrowing
      split <;> simp [hl, hl0]
    cases hg : s.GetByUser { UserID := query.SignedInUser.UserID } with
    | error e =>
      rw [handlerSteps_lookup_error srt s query e hg,
        handlerSteps_lookup_error srt s { query with Sort_ := "" } e hg]
      exact ⟨rfl, rfl⟩
    | ok stars =>
      by_cases hsc : query.IsStarred = true ∧ stars.UserStars = []
      · rw [handlerSteps_short_circuit srt s query stars hg hsc,
          handlerSteps_short_circuit srt s { query with Sort_ := "" } stars hg hsc]
        exact ⟨rfl, rfl⟩
      · cases hsd : s.SearchDashboards (storageQuery s (afterNarrowing query stars)) with
        | error e =>
          rw [handlerSteps_storage_error srt s query stars e hg hsc hsd,
            handlerSteps_storage_error srt s { query with Sort_ := "" } stars e hg hsc
              ((hq stars).symm ▸ hsd)]
          exact ⟨by rw [hq stars], rfl⟩
        | ok hs =>
          rw [handlerSteps_success srt s query stars hs hg hsc hsd,
            handlerSteps_success srt s { query with Sort_ := "" } stars hs hg hsc
              ((hq stars).symm ▸ hsd)]
          exact ⟨by rw [hq stars], rfl⟩
  · intro hne stars dq hs hg hcalls hsd
    by_cases hsc : query.IsStarred = true ∧ stars.UserStars = []
    · rw [handlerSteps_short_circuit srt s query stars hg hsc] at hcalls
      simp at hcalls
    · cases hsd2 : s.SearchDashboards (storageQuery s (afterNarrowing query stars)) with
      | error e =>
        rw [handlerSteps_storage_error srt s query stars e hg hsc hsd2] at hcalls
        simp only [List.cons.injEq, and_true] at hcalls
        rw [← hcalls, hsd2] at hsd
        cases hsd
      | ok hs2 =>
        rw [handlerSteps_success srt s query stars hs2 hg hsc hsd2] at hcalls ⊢
        simp only [List.cons.injEq, and_true] at hcalls
        rw [← hcalls, hsd2] at hsd
        cases hsd
        have hb : (query.Sort_ == "") = false := by simpa using hne
        simp only [finalHits, hb, Bool.false_eq_true, if_false]

/-- Counterexample to C9 as stated: with "alpha-asc" and "alpha-desc"
registered, the name "none-such" is unknown; the storage answers the hits
titled "b" and "a" in that order. Under the unknown name the result keeps the
order "b", "a" and the unsorted tags, under the empty name it is "a", "b"
with sorted tags. -/
theorem SearchHandler_unknown_sort_counterexample :
    (sampleService [] [mkHit 1 "b" ["z", "y"] false, mkHit 2 "a" [] false]).sortOptions.lookup
        "none-such" = none ∧
      (SearchHandler insertionSorter
        (sampleService [] [mkHit 1 "b" ["z", "y"] false, mkHit 2 "a" [] false])
        { sampleQuery with Sort_ := "none-such" }).query.Result
        = [mkHit 1 "b" ["z", "y"] false, mkHit 2 "a" [] false] ∧
      (SearchHandler insertionSorter
        (sampleService [] [mkHit 1 "b" ["z", "y"] false, mkHit 2 "a" [] false])
        { sampleQuery with Sort_ := "" }).query.Result
        = [mkHit 2 "a" [] false, mkHit 1 "b" ["y", "z"] false] := by
  decide

/-- Witness of C9 (as the code has it): the query named "none-such" against
the service with the two alphabetical options registered. -/
theorem SearchHandler_unknown_sort_witness :
    (sampleService sampleStars.UserStars sampleHits).sortOptions.lookup "none-such" = none ∧
    (SearchHandler insertionSorter (sampleService sampleStars.UserStars sampleHits)
      { sampleQuery with Sort_ := "none-such" }).query.Result =
      setStarred sampleStars sampleHits :=
  ⟨by decide,
    (SearchHandler_unknown_sort insertionSorter (sampleService sampleStars.UserStars sampleHits)
      { sampleQuery with Sort_ := "none-such" } (by decide)).2.2.2 (by decide) sampleStars
      (storageQuery (sampleService sampleStars.UserStars sampleHits)
        (afterNarrowing { sampleQuery with Sort_ := "none-such" } sampleStars))
      sampleHits rfl rfl rfl⟩

/-! ### The narrowing step as an optimisation -/

theorem sorted_perm_eq (l₁ l₂ : HitList) (hp : l₁.Perm l₂)
    (h₁ : l₁.Pairwise (fun a b => HitList.Less b a = false))
    (h₂ : l₂.Pairwise (fun a b => HitList.Less b a = false))
    (hn : (l₁.map Hit.Title).Nodup) : l₁ = l₂ := by
  have hanti : IsAntisymm Hit (fun a b => a.Title < b.Title) :=
    ⟨fun a b hab hba => absurd hba (lt_asymm hab)⟩
  have strict : ∀ l : HitList, l.Pairwise (fun a b => HitList.Less b a = false) →
      (l.map Hit.Title).Nodup → l.Pairwise (fun a b => a.Title < b.Title) := by
    intro l hl hnd
    have hne : l.Pairwise (fun a b => a.Title ≠ b.Title) := List.pairwise_map.mp hnd
    refine List.Pairwise.imp (fun {a b} hab => ?_) (hl.and hne)
    exact lt_of_le_of_ne ((strLess_eq_false_iff a.Title b.Title).mp hab.1) hab.2
  exact List.eq_of_perm_of_sorted hp (strict l₁ h₁ hn)
    (strict l₂ h₂ ((hp.map Hit.Title).nodup_iff.mp hn))

theorem postSort_filter (srt : SortSort) (query : Query) (hs : HitList) (p : Int → Bool)
    (hdet : query.Sort_ ≠ "" ∨ (hs.map Hit.Title).Nodup) :
    postSort srt query (hs.filter (fun h => p h.ID)) =
      (postSort srt query hs).filter (fun h => p h.ID) := by
  unfold postSort
  by_cases hsort : query.Sort_ = ""
  · have hnd : (hs.map Hit.Title).Nodup := by
      rcases hdet with h | h
      · exact absurd hsort h
      · exact h
    simp only [hsort, beq_self_eq_true, if_true, sortedHits, List.nil_append, List.filter_map]
    have hrun : srt.run (hs.filter (fun h => p h.ID)) =
        (srt.run hs).filter (fun h => p h.ID) := by
      refine sorted_perm_eq _ _ ?_ (srt.sorted _) ((srt.sorted hs).filter _) ?_
      · exact (srt.perm _).trans ((srt.perm hs).filter _).symm
      · have h1 : ((hs.filter (fun h => p h.ID)).map Hit.Title).Nodup :=
          List.Nodup.sublist ((List.filter_sublist hs).map Hit.Title) hnd
        exact ((srt.perm _).map Hit.Title).nodup_iff.mpr h1
    rw [hrun]
    rfl
  · have hb : (query.Sort_ == "") = false := by simpa using hsort
    simp only [hb, Bool.false_eq_true, if_false]

theorem postSort_ids (srt : SortSort) (query : Query) (hs : HitList) (p : Int → Bool)
    (h : ∀ x ∈ hs, p x.ID = true) : ∀ x ∈ postSort srt query hs, p x.ID = true := by
  intro x hx
  unfold postSort at hx
  split at hx
  · have hp := (sortedHits_perm srt hs).mem_iff.mp hx
    simp only [List.mem_map] at hp
    obtain ⟨y, hy, rfl⟩ := hp
    exact h y hy
  · exact h x hx

theorem SearchHandlerWithoutNarrowing_success {ε : Type} (srt : SortSort)
    (s : SearchService ε) (query : Query) (stars : GetUserStarsResult) (hs : HitList)
    (hg : s.GetByUser { UserID := query.SignedInUser.UserID } = .ok stars)
    (hsc : ¬ (query.IsStarred = true ∧ stars.UserStars = []))
    (hsd : s.SearchDashboards (storageQuery s query) = .ok hs) :
    SearchHandlerWithoutNarrowing srt s query =
      { err := none, query := { query with Result := finalHits srt query stars hs }
        storageCalls := [storageQuery s query] } := by
  unfold SearchHandlerWithoutNarrowing
  have h : ¬ ((query.IsStarred && stars.UserStars.length == 0) = true) := by
    simpa using hsc
  simp only [hg, hsd]
  rw [if_neg h]
  rfl

theorem SearchHandlerWithoutNarrowing_storage_error {ε : Type} (srt : SortSort)
    (s : SearchService ε) (query : Query) (stars : GetUserStarsResult) (e : ε)
    (hg : s.GetByUser { UserID := query.SignedInUser.UserID } = .ok stars)
    (hsc : ¬ (query.IsStarred = true ∧ stars.UserStars = []))
    (hsd : s.SearchDashboards (storageQuery s query) = .error e) :
    SearchHandlerWithoutNarrowing srt s query =
      { err := some e, query := query, storageCalls := [storageQuery s query] } := by
  unfold SearchHandlerWithoutNarrowing
  have h : ¬ ((query.IsStarred && stars.UserStars.length == 0) = true) := by
    simpa using hsc
  simp only [hg, hsd]
  rw [if_neg h]

/-- C8, as the code has it: for a starred-only query without id and uid
filters, if the storage answers the query restricted to ids with its answer
to the unrestricted query cut down to the hits with these ids (which a
storage that cuts a page out of the restricted hits does not), answers hits
with the starred flag down, and the order of the result is determined (a sort
name is given, or no two hits answered share a title), then the handler and
the handler without the narrowing step return the same error and leave the
same `query.Result`. -/
theorem SearchHandler_narrowing_optimisation {ε : Type} (srt : SortSort)
    (s : SearchService ε) (query : Query)
    (hst : query.IsStarred = true) (hids : query.DashboardIds = [])
    (huids : query.DashboardUIDs = [])
    (hrestrict : ∀ ids, ids ≠ [] →
      s.SearchDashboards { storageQuery s query with DashboardIds := ids } =
        (s.SearchDashboards (storageQuery s query)).map
          (fun hs => hs.filter (fun h => decide (h.ID ∈ ids))))
    (hflags : ∀ hs, s.SearchDashboards (storageQuery s query) = .ok hs →
      ∀ h ∈ hs, h.IsStarred = false)
    (hdet : query.Sort_ ≠ "" ∨
      ∀ hs, s.SearchDashboards (storageQuery s query) = .ok hs → (hs.map Hit.Title).Nodup) :
    (SearchHandler srt s query).query.Result =
        (SearchHandlerWithoutNarrowing srt s query).query.Result ∧
      (SearchHandler srt s query).err = (SearchHandlerWithoutNarrowing srt s query).err := by
  cases hg : s.GetByUser { UserID := query.SignedInUser.UserID } with
  | error e =>
    rw [handlerSteps_lookup_error srt s query e hg]
    unfold SearchHandlerWithoutNarrowing
    simp [hg]
  | ok stars =>
    by_cases hsc : query.IsStarred = true ∧ stars.UserStars = []
    · rw [handlerSteps_short_circuit srt s query stars hg hsc]
      unfold SearchHandlerWithoutNarrowing
      simp [hg, hsc.1, hsc.2]
    · have hne : stars.UserStars ≠ [] := fun h => hsc ⟨hst, h⟩
      have hkeys : stars.keys ≠ [] := by
        unfold GetUserStarsResult.keys
        intro h
        exact hne (List.map_eq_nil_iff.mp h)
      have hq : storageQuery s (afterNarrowing query stars) =
          { storageQuery s query with DashboardIds := stars.keys } := by
        simp [storageQuery, afterNarrowing, hst, hids, huids]
      have hr := hrestrict stars.keys hkeys
      rw [← hq] at hr
      cases hsd : s.SearchDashboards (storageQuery s query) with
      | error e =>
        rw [hsd] at hr
        rw [handlerSteps_storage_error srt s query stars e hg hsc hr,
          SearchHandlerWithoutNarrowing_storage_error srt s query stars e hg hsc hsd]
        exact ⟨(afterNarrowing_fields query stars).2.2, rfl⟩
      | ok hs =>
        rw [hsd] at hr
        rw [handlerSteps_success srt s query stars _ hg hsc hr,
          SearchHandlerWithoutNarrowing_success srt s query stars hs hg hsc hsd]
        refine ⟨?_, rfl⟩
        have hdet2 : query.Sort_ ≠ "" ∨ (hs.map Hit.Title).Nodup :=
          hdet.imp id (fun h => h hs hsd)
        have hps := postSort_filter srt query hs (fun id => decide (id ∈ stars.keys)) hdet2
        have hfin : ∀ X, finalHits srt query stars X =
            setStarred stars ((postSort srt query X).filter
              (fun h => h.IsStarred || decide (h.ID ∈ stars.keys))) := by
          intro X
          simp only [finalHits, hst, if_true]
          exact setStarred_filter stars _
        show finalHits srt query stars _ = finalHits srt query stars hs
        rw [hfin, hfin]
        congr 1
        have hleft : (postSort srt query (hs.filter (fun h => decide (h.ID ∈ stars.keys)))).filter
            (fun h => h.IsStarred || decide (h.ID ∈ stars.keys)) =
            postSort srt query (hs.filter (fun h => decide (h.ID ∈ stars.keys))) := by
          refine List.filter_eq_self.mpr (fun x hx => ?_)
          have := postSort_ids srt query _ (fun id => decide (id ∈ stars.keys))
            (fun y hy => (List.mem_filter.mp hy).2) x hx
          simp only [this, Bool.or_true]
        have hright : (postSort srt query hs).filter
            (fun h => h.IsStarred || decide (h.ID ∈ stars.keys)) =
            (postSort srt query hs).filter (fun h => decide (h.ID ∈ stars.keys)) := by
          refine List.filter_congr (fun x hx => ?_)
          have := postSort_flags srt query hs (hflags hs hsd) x hx
          simp [this]
        rw [hleft, hright]
        exact hps

theorem paginate_subset (limit page : Int) (rows : HitList) :
    ∀ h ∈ paginate limit page rows, h ∈ rows := by
  intro h hh
  unfold paginate at hh
  split at hh
  · exact hh
  · exact List.mem_of_mem_drop (List.mem_of_mem_take hh)

/-- The table storage treats `DashboardIds` as a restriction: every hit it
answers to a query with ids has one of these ids. -/
theorem tableStorage_within_ids {ε : Type} (rows : HitList) (dq : FindPersistedDashboardsQuery)
    (hs : HitList) (hne : dq.DashboardIds ≠ [])
    (h : (tableStorage rows dq : Except ε HitList) = .ok hs) :
    ∀ x ∈ hs, x ∈ rows ∧ x.ID ∈ dq.DashboardIds := by
  intro x hx
  unfold tableStorage at h
  have hemp : dq.DashboardIds.isEmpty = false := by
    cases hd : dq.DashboardIds with
    | nil => exact absurd hd hne
    | cons a l => rfl
  simp only [hemp, Bool.false_eq_true, if_false, Except.ok.injEq] at h
  subst h
  have := paginate_subset _ _ _ x hx
  simpa using this

/-- Counterexample to C8 as stated: the storage holds the hits 1 ("a") and 2
("b") and restricts by `DashboardIds` before it cuts the page; user 7 has
starred id 2 and asks for starred hits with `Limit = 1`, `Page = 1`. The
handler hands the ids `[2]` to the storage and returns hit 2; without the
narrowing step the storage answers the first page of all hits, hit 1, and
the result is empty. -/
theorem SearchHandler_narrowing_optimisation_counterexample :
    ({ sampleQuery with IsStarred := true, Limit := 1, Page := 1 } : Query).DashboardIds = [] ∧
      ({ sampleQuery with IsStarred := true, Limit := 1, Page := 1 } : Query).DashboardUIDs = [] ∧
      (SearchHandler insertionSorter
        (tableService [(2, true)] [mkHit 1 "a" [] false, mkHit 2 "b" [] false])
        { sampleQuery with IsStarred := true, Limit := 1, Page := 1 }).query.Result
        = [mkHit 2 "b" [] true] ∧
      (SearchHandlerWithoutNarrowing insertionSorter
        (tableService [(2, true)] [mkHit 1 "a" [] false, mkHit 2 "b" [] false])
        { sampleQuery with IsStarred := true, Limit := 1, Page := 1 }).query.Result = [] := by
  decide

theorem tableStorage_restricts {ε : Type} (rows : HitList) (dq : FindPersistedDashboardsQuery)
    (hl : dq.Limit < 1) (hd : dq.DashboardIds = []) (ids : List Int) (hne : ids ≠ []) :
    (tableStorage rows { dq with DashboardIds := ids } : Except ε HitList) =
      (tableStorage rows dq : Except ε HitList).map
        (fun hs => hs.filter (fun h => decide (h.ID ∈ ids))) := by
  cases ids with
  | nil => exact absurd rfl hne
  | cons a l => simp [tableStorage, paginate, hl, hd, Except.map]

/-- Witness of C8 (as the code has it): the starred-only query with
`Limit = 0`, so that the table storage cuts no page, user 7 having starred
id 2, over a table of two hits with different titles and the flag down. -/
theorem SearchHandler_narrowing_optimisation_witness :
    (SearchHandler insertionSorter
        (tableService [(2, true)] [mkHit 1 "a" [] false, mkHit 2 "b" [] false])
        { sampleQuery with IsStarred := true }).query.Result =
      (SearchHandlerWithoutNarrowing insertionSorter
        (tableService [(2, true)] [mkHit 1 "a" [] false, mkHit 2 "b" [] false])
        { sampleQuery with IsStarred := true }).query.Result ∧
    (SearchHandler insertionSorter
        (tableService [(2, true)] [mkHit 1 "a" [] false, mkHit 2 "b" [] false])
        { sampleQuery with IsStarred := true }).err =
      (SearchHandlerWithoutNarrowing insertionSorter
        (tableService [(2, true)] [mkHit 1 "a" [] false, mkHit 2 "b" [] false])
        { sampleQuery with IsStarred := true }).err :=
  SearchHandler_narrowing_optimisation insertionSorter
    (tableService [(2, true)] [mkHit 1 "a" [] false, mkHit 2 "b" [] false])
    { sampleQuery with IsStarred := true } rfl rfl rfl
    (fun ids hne => tableStorage_restricts [mkHit 1 "a" [] false, mkHit 2 "b" [] false]
      (storageQuery (tableService [(2, true)] [mkHit 1 "a" [] false, mkHit 2 "b" [] false])
        { sampleQuery with IsStarred := true }) (by decide) rfl ids hne)
    (fun hs h => by
      have h2 : (Except.ok [mkHit 1 "a" [] false, mkHit 2 "b" [] false] : Except String HitList)
          = .ok hs := h
      cases h2
      decide)
    (Or.inr (fun hs h => by
      have h2 : (Except.ok [mkHit 1 "a" [] false, mkHit 2 "b" [] false] : Except String HitList)
          = .ok hs := h
      cases h2
      decide))

end search

namespace permissions

open search

/-! ## Properties of the permission filter -/

theorem classify_star : classify "*" = ScopeKind.AllWildcard := by decide

theorem build_wildcard (ownKind : String) (nested : Bool) (scopes : List String)
    (h : "*" ∈ scopes) : build ownKind nested scopes = (Cond.always, []) := by
  unfold build
  have hany : ((scopes.map classify).any
      (fun k => k == ScopeKind.AllWildcard || k == ScopeKind.KindWildcard ownKind)) = true := by
    rw [List.any_eq_true]
    exact ⟨ScopeKind.AllWildcard, List.mem_map.mpr ⟨"*", h, classify_star⟩, by simp⟩
  simp only [hany, if_true]

theorem setupTest_dashboards :
    ((setupTest 10 100).filter (fun r => !r.IsFolder)).length = 100 := by
  decide

/-- The modelled filter gives, over the rows seeded with 10 folders and 100
dashboards, the counts the integration test expects for its cases that name
their scopes: six dashboards by UID, the dashboards of two folders, all
folders by the folder wildcard, three folders by UID, one folder and one
dashboard under edit, and the alert folders with and without a read
wildcard. -/
theorem countMatching_test_table :
    countMatching (testUser [(ActionDashboardsRead, "dashboards:uid:110"),
        (ActionDashboardsRead, "dashboards:uid:40"), (ActionDashboardsRead, "dashboards:uid:22"),
        (ActionDashboardsRead, "dashboards:uid:13"), (ActionDashboardsRead, "dashboards:uid:55"),
        (ActionDashboardsRead, "dashboards:uid:99")]) PERMISSION_VIEW "" false
      { dashboard := setupTest 10 100, folderParent := [] } = .ok 6 ∧
    countMatching (testUser [(ActionDashboardsRead, "folders:uid:8"),
        (ActionDashboardsRead, "folders:uid:10")]) PERMISSION_VIEW "" false
      { dashboard := setupTest 10 100, folderParent := [] } = .ok 20 ∧
    countMatching (testUser [(ActionFoldersRead, "folders:uid:*")]) PERMISSION_VIEW "" false
      { dashboard := setupTest 10 100, folderParent := [] } = .ok 10 ∧
    countMatching (testUser [(ActionFoldersRead, "folders:uid:3"),
        (ActionFoldersRead, "folders:uid:6"), (ActionFoldersRead, "folders:uid:9")])
      PERMISSION_VIEW "" false
      { dashboard := setupTest 10 100, folderParent := [] } = .ok 3 ∧
    countMatching (testUser [(ActionFoldersRead, "folders:uid:3"),
        (ActionDashboardsCreate, "folders:uid:3"), (ActionDashboardsRead, "dashboards:uid:33"),
        (ActionDashboardsWrite, "dashboards:uid:33")]) PERMISSION_EDIT "" false
      { dashboard := setupTest 10 100, folderParent := [] } = .ok 2 ∧
    countMatching (testUser [(ActionFoldersRead, "folders:uid:3"),
        (ActionAlertingRuleRead, "folders:uid:3"), (ActionFoldersRead, "folders:uid:8"),
        (ActionAlertingRuleRead, "folders:uid:8")]) PERMISSION_VIEW TypeAlertFolder false
      { dashboard := setupTest 10 100, folderParent := [] } = .ok 2 ∧
    countMatching (testUser [(ActionFoldersRead, "*"),
        (ActionAlertingRuleRead, "folders:uid:3"), (ActionAlertingRuleRead, "folders:uid:8")])
      PERMISSION_VIEW TypeAlertFolder false
      { dashboard := setupTest 10 100, folderParent := [] } = .ok 2 :=
  ⟨rfl, rfl, rfl, rfl, rfl, rfl, rfl⟩

/-- With nested folders, a user granted read on the folder "parent" alone
sees the dashboard in it and the dashboard in its subfolder, as the second
integration test expects. -/
theorem countMatching_nested :
    countMatching (testUser [(ActionDashboardsRead, "folders:uid:parent")]) PERMISSION_VIEW ""
      true
      { dashboard :=
          [{ ID := 1, OrgID := 1, Slug := "parent", UID := "parent", Title := "parent",
             IsFolder := true, FolderID := 0 },
           { ID := 2, OrgID := 1, Slug := "subfolder", UID := "subfolder", Title := "subfolder",
             IsFolder := true, FolderID := 0 },
           { ID := 3, OrgID := 1, Slug := "dashboard-1", UID := "d1", Title := "dashboard 1",
             IsFolder := false, FolderID := 1 },
           { ID := 4, OrgID := 1, Slug := "dashboard-2", UID := "d2", Title := "dashboard 2",
             IsFolder := false, FolderID := 2 }]
        folderParent := [("subfolder", "parent")] } = .ok 2 :=
  rfl

/-- C10: for a user who holds the all-resources wildcard `"*"` for the
dashboards read action, the filter for permission level view and the default
query type is built without error, with or without nested folders, and its
condition is satisfied by every dashboard row (every row that is not a
folder) of every table; over the rows seeded with 10 folders and 100
dashboards the dashboard rows it matches number 100, and the count over all
rows is 100 when the user holds no scope for the folders read action, as in
the test. -/
theorem Where_view_wildcard (user : SignedInUser) (nestedFoldersEnabled : Bool)
    (h : "*" ∈ userScopes user ActionDashboardsRead) :
    ∃ f, NewFilter user PERMISSION_VIEW "" nestedFoldersEnabled = .ok f ∧
      (∀ (t : Tables) (row : Dashboard), row ∈ t.dashboard → row.IsFolder = false →
        f.Where.2.1.eval t row f.Where.2.2 = true) ∧
      ((matching f { dashboard := setupTest 10 100, folderParent := [] }).filter
        (fun r => !r.IsFolder)).length = 100 ∧
      (userScopes user ActionFoldersRead = [] →
        countMatching user PERMISSION_VIEW "" nestedFoldersEnabled
          { dashboard := setupTest 10 100, folderParent := [] } = .ok 100) := by
  have hnew : NewFilter user PERMISSION_VIEW "" nestedFoldersEnabled =
      .ok { user := user, dashboardActions := [ActionDashboardsRead]
            folderActions := [ActionFoldersRead]
            nestedFoldersEnabled := nestedFoldersEnabled } := by
    simp [NewFilter, PERMISSION_VIEW, PERMISSION_EDIT, TypeAlertFolder]
  have hsat : ∀ (t : Tables) (row : Dashboard), row.IsFolder = false →
      (Filter.Where { user := user, dashboardActions := [ActionDashboardsRead]
                      folderActions := [ActionFoldersRead]
                      nestedFoldersEnabled := nestedFoldersEnabled }).2.1.eval t row
        (Filter.Where { user := user, dashboardActions := [ActionDashboardsRead]
                        folderActions := [ActionFoldersRead]
                        nestedFoldersEnabled := nestedFoldersEnabled }).2.2 = true := by
    intro t row hrow
    simp [Filter.Where, conjoin, build_wildcard "dashboards" nestedFoldersEnabled _ h,
      Cond.eval, Cond.arity, hrow]
  refine ⟨_, hnew, fun t row _ hrow => hsat t row hrow, ?_, ?_⟩
  · rw [← setupTest_dashboards]
    unfold matching
    rw [List.filter_filter]
    congr 1
    refine List.filter_congr (fun row _ => ?_)
    cases hf : row.IsFolder with
    | true => simp
    | false => simp [hsat _ row hf]
  · intro hnone
    have hfold : build "folders" nestedFoldersEnabled [] = (Cond.never, []) := by
      simp [build]
    unfold countMatching
    rw [hnew]
    simp only [Except.map]
    congr 1
    rw [← setupTest_dashboards]
    unfold matching
    congr 1
    refine List.filter_congr (fun row _ => ?_)
    simp [Filter.Where, conjoin, build_wildcard "dashboards" nestedFoldersEnabled _ h,
      hnone, hfold, Cond.eval, Cond.arity]

/-- Witness of C10: the user of the test, who holds `"*"` for the dashboards
read action and nothing else, without nested folders. -/
theorem Where_view_wildcard_witness :
    "*" ∈ userScopes (testUser [(ActionDashboardsRead, "*")]) ActionDashboardsRead ∧
    ∃ f, NewFilter (testUser [(ActionDashboardsRead, "*")]) PERMISSION_VIEW "" false = .ok f ∧
      (∀ (t : Tables) (row : Dashboard), row ∈ t.dashboard → row.IsFolder = false →
        f.Where.2.1.eval t row f.Where.2.2 = true) ∧
      ((matching f { dashboard := setupTest 10 100, folderParent := [] }).filter
        (fun r => !r.IsFolder)).length = 100 ∧
      (userScopes (testUser [(ActionDashboardsRead, "*")]) ActionFoldersRead = [] →
        countMatching (testUser [(ActionDashboardsRead, "*")]) PERMISSION_VIEW "" false
          { dashboard := setupTest 10 100, folderParent := [] } = .ok 100) :=
  ⟨by decide,
    Where_view_wildcard (testUser [(ActionDashboardsRead, "*")]) false (by decide)⟩

end permissions
